import Mathlib

/-!
Shallow embedding of `btgym/research/policy_stacked_lstm.py`
(`StackedLstmPolicy.__init__`), modelling the computation-graph assembly
at the level of tensor shapes and, for the reshape round-trip, at the
level of row-major tensor data.

The collaborators `conv_2d_network`, `lstm_network` and `dense_aac_network`
live in `btgym.algorithms.nn_utils`, which is not part of the sources under
verification; they are modelled from the specification's interface
contracts (spec section 6) and are marked as such.
-/

/-- A tensor as row-major flat data together with its shape list. -/
structure Tensor (α : Type) where
  shape : List Nat
  data : List α
deriving DecidableEq

/-- Shape-level `tf.reshape`: succeeds exactly when the requested shape has
the same number of elements as the source tensor; TensorFlow raises an
`InvalidArgumentError` at evaluation time otherwise. -/
def tfReshape (numel : Nat) (newShape : List Nat) : Option (List Nat) :=
  if newShape.prod = numel then some newShape else none

/-- Data-level `tf.reshape`: keeps the row-major data untouched and only
relabels the shape, failing when the element counts disagree. -/
def tfReshapeT {α : Type} (t : Tensor α) (newShape : List Nat) : Option (Tensor α) :=
  if t.data.length = newShape.prod then some { shape := newShape, data := t.data } else none

/-- Line 83: `max_seq_len = tf.cast(x_shape_dynamic[0] / self.on_batch_size, tf.int32)`.
True division of the int32 leading dimension followed by a cast to int32
truncates, which on non-negative dimensions is integer division. -/
def maxSeqLen (n batch_size : Nat) : Nat := n / batch_size

/-- Observation-space mapping: the mandatory `external` modality shape and
the optional `internal` modality shape (per-sample shapes, without the
batch dimension that `nested_placeholders` adds as `None`). -/
structure ObSpace where
  external : List Nat
  internal : Option (List Nat)
deriving DecidableEq

/-- Keyword-argument dictionary forwarded to the convolutional encoder;
values are the numeric shape/stride lists the code passes. -/
abbrev KwDict := String → Option (List Nat)

/-- Lines 42-51: the hard-coded 1D-geometry constants that
`kwargs.update(dict(...))` writes into the keyword dictionary. -/
def plugin_1d : List (String × List Nat) :=
  [(r"conv_2d_filter_size", [3, 1]),
   (r"conv_2d_stride", [2, 1]),
   (r"pc_estimator_stride", [2, 1]),
   (r"duell_pc_x_inner_shape", [6, 1, 32]),
   (r"duell_pc_filter_size", [4, 1]),
   (r"duell_pc_stride", [2, 1])]

/-- Python `dict.update`: keys present in the update mapping are
overwritten, all other keys keep their caller-supplied values. -/
def kwargsUpdate (kw : KwDict) (upd : List (String × List Nat)) : KwDict :=
  fun k =>
    match upd.lookup k with
    | some v => some v
    | none => kw k

/-- Tag naming which graph tensor a concatenation operand is. -/
inductive FeatTag
  | lstm1Out
  | extFeatures
  | actionReward
  | internalFeatures
deriving DecidableEq

/-- One operand of a feature-axis concatenation: which tensor it is and its
feature width (the size of its last axis). -/
structure Feat where
  tag : FeatTag
  width : Nat
deriving DecidableEq

/-- Feature width of `tf.concat(xs, axis=-1)`: the sum of the operand widths. -/
def concatWidth (xs : List Feat) : Nat := (xs.map Feat.width).sum

/-- One flattened recurrent-state placeholder component and the unit count
it is sized for. -/
structure StatePl where
  plName : String
  size : Nat
deriving DecidableEq

/-- The four-part result contract of one recurrent layer. -/
structure LstmNet where
  units : Nat
  output_width : Nat
  state_sizes : List Nat
  state_pl_flatten : List StatePl
deriving DecidableEq

def lstm1Name : String := r"lstm_1"

def lstm2Name : String := r"lstm_2"

def cSuffix : String := r"/c"

def hSuffix : String := r"/h"

/-- Modelled from the spec: `lstm_network` from `btgym.algorithms.nn_utils`
(not under src/). Given a `[batch, time, feature]` input, a time-length
tensor, a cell class and a tuple of unit counts (here always a single-entry
tuple), it returns the output sequence (feature width equal to the layer's
unit count), the initial-state placeholder structure, the final state and
the flattened state-placeholder list; a `BasicLSTMCell` state is a
(cell, hidden) pair, each component sized by the unit count. -/
def lstm_network (layerName : String) (units : Nat) : LstmNet :=
  { units := units
    output_width := units
    state_sizes := [units, units]
    state_pl_flatten :=
      [{ plName := layerName ++ cSuffix, size := units },
       { plName := layerName ++ hSuffix, size := units }] }

/-- Modelled from the spec: `conv_2d_network` from
`btgym.algorithms.nn_utils` (not under src/). It maps a
`[n, *external_shape]` observation batch to an `[n, h, w, c]` feature
tensor; the trailing feature dimensions are internal to the encoder and
appear here as an opaque parameter of the construction. -/
def conv_2d_network (conv_trailing : List Nat) : List Nat := conv_trailing

/-- Modelled from the spec: `dense_aac_network` from
`btgym.algorithms.nn_utils` (not under src/). Given an `[m, features]`
input and the action-space size it returns logits of shape
`[m, ac_space]`, a value of shape `[m]` and a sampled action of shape
`[m]`. -/
def dense_aac_network (m _features ac_space : Nat) : List Nat × List Nat × List Nat :=
  ([m, ac_space], [m], [m])

/-- Line 128: the guard of the off-policy/auxiliary branch, literally
`if False:` in the source. -/
def offPolicyGuard : Bool := false

/-- Shape summary of the (never-built) off-policy/auxiliary branch:
off-policy logits and value, pixel-control duelling Q-features and
reward-prediction logits (lines 128-205). -/
structure OffBranch where
  off_logits_width : Nat
  off_vf_built : Bool
  pc_q_actions : Nat
  rp_logits_built : Bool
deriving DecidableEq

/-- Auxiliary-callback registry values; line 229 registers the
`get_pc_target` bound method under the key `pixel_change`. -/
inductive AuxCallback
  | getPcTarget
deriving DecidableEq

/-- The training-phase flag placeholder created by
`tf.placeholder_with_default` (lines 213-217). -/
structure TrainPhasePl where
  default_value : Bool
deriving DecidableEq

def pixelChangeKey : String := r"pixel_change"

/-- Construction-time result of `StackedLstmPolicy.__init__`: every field
mirrors a `self.*` assignment or an intermediate graph tensor that the
claims are about. -/
structure StackedLstmPolicy where
  ob_space : ObSpace
  ac_space : Nat
  rp_sequence_size : Nat
  lstm_layers : List Nat
  aux_estimate : Bool
  callback : List (String × AuxCallback)
  fwd_kwargs : KwDict
  ext_feature_width : Nat
  stage2_1_input : List Feat
  stage2_2_input : List Feat
  on_lstm_1 : LstmNet
  on_lstm_2 : LstmNet
  recurrent_layers : List LstmNet
  on_lstm_state_out_pair : LstmNet × LstmNet
  on_lstm_state_pl_flatten : List StatePl
  off_branch : Option OffBranch
  train_phase : TrainPhasePl

/-- The constructor `StackedLstmPolicy.__init__` (lines 19-229), at the
level of graph structure and static shapes. `conv_trailing` stands for the
trailing static shape of the convolutional encoder's output (spec-modelled
collaborator); `pre_train_phase` is `some` when a `train_phase` attribute
already exists before the try/except block of lines 208-217 and `none`
when accessing it raises. -/
def StackedLstmPolicy.construct (ob_space : ObSpace) (conv_trailing : List Nat)
    (ac_space rp_sequence_size : Nat) (lstm_layers : List Nat)
    (aux_estimate : Bool) (kwargs : KwDict)
    (pre_train_phase : Option TrainPhasePl) : StackedLstmPolicy :=
  let fwd_kwargs := kwargsUpdate kwargs plugin_1d
  let on_aac_x_trailing := conv_2d_network conv_trailing
  let ext_feature_width := on_aac_x_trailing.prod
  let on_stage2_1_input : List Feat :=
    [{ tag := FeatTag.extFeatures, width := ext_feature_width },
     { tag := FeatTag.actionReward, width := ac_space + 1 }]
  let lstm_1 := lstm_network lstm1Name (lstm_layers.headD 0)
  let stage2_2_base : List Feat :=
    { tag := FeatTag.lstm1Out, width := lstm_1.output_width } :: on_stage2_1_input
  let on_stage2_2_input : List Feat :=
    match ob_space.internal with
    | some ish => stage2_2_base ++ [{ tag := FeatTag.internalFeatures, width := ish.prod }]
    | none => stage2_2_base
  let lstm_2 := lstm_network lstm2Name (lstm_layers.getLastD 0)
  let off_branch : Option OffBranch :=
    if offPolicyGuard then
      some { off_logits_width := ac_space
             off_vf_built := true
             pc_q_actions := ac_space
             rp_logits_built := true }
    else none
  let train_phase :=
    match pre_train_phase with
    | some tp => tp
    | none => { default_value := false }
  { ob_space := ob_space
    ac_space := ac_space
    rp_sequence_size := rp_sequence_size
    lstm_layers := lstm_layers
    aux_estimate := aux_estimate
    callback := if aux_estimate then [(pixelChangeKey, AuxCallback.getPcTarget)] else []
    fwd_kwargs := fwd_kwargs
    ext_feature_width := ext_feature_width
    stage2_1_input := on_stage2_1_input
    stage2_2_input := on_stage2_2_input
    on_lstm_1 := lstm_1
    on_lstm_2 := lstm_2
    recurrent_layers := [lstm_1, lstm_2]
    on_lstm_state_out_pair := (lstm_1, lstm_2)
    on_lstm_state_pl_flatten := lstm_1.state_pl_flatten ++ lstm_2.state_pl_flatten
    off_branch := off_branch
    train_phase := train_phase }

/-- Evaluation-time output shapes of the on-policy pass. -/
structure EvalOut where
  on_logits : List Nat
  on_vf : List Nat
  lstm_1_state_sizes : List Nat
  lstm_2_state_sizes : List Nat
deriving DecidableEq

/-- Lines 101-107 at evaluation time: the optional reshape of the
`internal` modality to `[batch, time, features]`. -/
def internalReshape (p : StackedLstmPolicy) (n b : Nat) : Option (List Nat) :=
  match p.ob_space.internal with
  | some ish => tfReshape (n * ish.prod) [b, maxSeqLen n b, ish.prod]
  | none => some []

/-- Evaluating the assembled graph's on-policy pass with a flattened
leading dimension `n` and a supplied `batch_size` `b`: the reshapes of
lines 86, 87, 103-106 and 117 each fail (InvalidArgumentError, modelled as
`none`) whenever the requested element count disagrees with the source
tensor's. -/
def StackedLstmPolicy.evalShapes (p : StackedLstmPolicy) (n b : Nat) : Option EvalOut :=
  (tfReshape (n * (p.ac_space + 1)) [b, maxSeqLen n b, p.ac_space + 1]).bind (fun _ =>
    (tfReshape (n * p.ext_feature_width) [b, maxSeqLen n b, p.ext_feature_width]).bind (fun _ =>
      (internalReshape p n b).bind (fun _ =>
        (tfReshape (b * maxSeqLen n b * p.on_lstm_2.output_width)
            [n, p.on_lstm_2.output_width]).bind (fun _ =>
          some { on_logits := (dense_aac_network n p.on_lstm_2.output_width p.ac_space).1
                 on_vf := (dense_aac_network n p.on_lstm_2.output_width p.ac_space).2.1
                 lstm_1_state_sizes := p.on_lstm_1.state_sizes
                 lstm_2_state_sizes := p.on_lstm_2.state_sizes }))))

theorem tfReshape_of_ne (numel : Nat) (s : List Nat) (h : s.prod ≠ numel) :
    tfReshape numel s = none := if_neg h

theorem tfReshape_of_eq (numel : Nat) (s : List Nat) (h : s.prod = numel) :
    tfReshape numel s = some s := if_pos h

theorem prod_pair (x y : Nat) : List.prod [x, y] = x * y := by
  simp

theorem prod_triple (x y z : Nat) : List.prod [x, y, z] = x * y * z := by
  simp [Nat.mul_assoc]

/-- C1: for every construction of the policy network, `time_length` is
derived from the flattened leading dimension `n` as `n / batch_size` by
integer division (`maxSeqLen`, line 83), and evaluating the graph with an
`n` that is not a multiple of the supplied `batch_size` makes the reshape
to `[batch_size, time_length, features]` (line 86) fail at evaluation
time, rather than performing a silently wrong reshape. -/
theorem claim_C1_indivisible_batch_fails_at_eval (ob : ObSpace) (ct : List Nat)
    (ac rp : Nat) (layers : List Nat) (aux : Bool) (kw : KwDict)
    (tp : Option TrainPhasePl) (n b : Nat) (h : ¬ b ∣ n) :
    maxSeqLen n b = n / b ∧
    (StackedLstmPolicy.construct ob ct ac rp layers aux kw tp).evalShapes n b = none := by
  refine ⟨rfl, ?_⟩
  have hmul : b * (n / b) ≠ n := by
    intro hEq
    exact h ⟨n / b, hEq.symm⟩
  have hne : List.prod [b, maxSeqLen n b, ac + 1] ≠ n * (ac + 1) := by
    rw [prod_triple, maxSeqLen]
    intro hEq
    exact hmul (Nat.eq_of_mul_eq_mul_right (Nat.succ_pos ac) hEq)
  have hac : (StackedLstmPolicy.construct ob ct ac rp layers aux kw tp).ac_space = ac := rfl
  unfold StackedLstmPolicy.evalShapes
  rw [hac, tfReshape_of_ne _ _ hne]
  rfl

/-- Closed witness for C1 at `n = 10`, `batch_size = 4`. -/
theorem claim_C1_indivisible_batch_fails_at_eval_witness :
    ¬ (4 ∣ 10) ∧
    (maxSeqLen 10 4 = 10 / 4 ∧
      (StackedLstmPolicy.construct { external := [10, 10, 3], internal := none }
          [5, 5, 32] 4 4 [64, 256] false (fun _ => none) none).evalShapes 10 4 = none) :=
  ⟨by decide,
    claim_C1_indivisible_batch_fails_at_eval { external := [10, 10, 3], internal := none }
      [5, 5, 32] 4 4 [64, 256] false (fun _ => none) none 10 4 (by decide)⟩

/-- C2: for all valid `batch_size`, `time_length` and `feature_dim` with
`n = batch_size * time_length`, reshaping an `[n, feature_dim]` tensor to
`[batch_size, time_length, feature_dim]` (line 87, before the recurrent
layers) and then back to `[n, feature_dim]` (line 117, after recurrent
layer 2) is an exact round trip: the row-major data list is returned
unchanged, so every element sits in its original position. -/
theorem claim_C2_reshape_round_trip {α : Type} (b t f : Nat) (d : List α)
    (h : d.length = b * t * f) :
    (tfReshapeT { shape := [b * t, f], data := d } [b, t, f]).bind
        (fun x => tfReshapeT x [b * t, f]) =
      some { shape := [b * t, f], data := d } := by
  have h1 : d.length = List.prod [b, t, f] := by rw [prod_triple]; exact h
  have h2 : d.length = List.prod [b * t, f] := by rw [prod_pair]; exact h
  simp [tfReshapeT, h1, h2, Option.bind, Nat.mul_assoc]

/-- Closed witness for C2 at `batch_size = 2`, `time_length = 3`,
`feature_dim = 1` on the data list `[0, 1, 2, 3, 4, 5]`. -/
theorem claim_C2_reshape_round_trip_witness :
    ([0, 1, 2, 3, 4, 5] : List Nat).length = 2 * 3 * 1 ∧
    (tfReshapeT { shape := [2 * 3, 1], data := ([0, 1, 2, 3, 4, 5] : List Nat) } [2, 3, 1]).bind
        (fun x => tfReshapeT x [2 * 3, 1]) =
      some { shape := [2 * 3, 1], data := ([0, 1, 2, 3, 4, 5] : List Nat) } :=
  ⟨by decide, claim_C2_reshape_round_trip 2 3 1 [0, 1, 2, 3, 4, 5] (by decide)⟩

/-- C3: without the `internal` modality the Stage-2 concatenation input is
exactly `[recurrent-layer-1 output, encoded external features,
action-reward vector]` in that order (line 99) and its feature width is
`layer1_output_width + external_feature_width + (ac_space + 1)`; with
`internal` present its flattened features are appended as a fourth term
(lines 101-107) and the width grows by exactly the internal feature width.
The constructor is total, so the absence of `internal` is never an error. -/
theorem claim_C3_stage2_concat_order_and_width (ob : ObSpace) (ct : List Nat)
    (ac rp : Nat) (layers : List Nat) (aux : Bool) (kw : KwDict)
    (tp : Option TrainPhasePl) :
    let p := StackedLstmPolicy.construct ob ct ac rp layers aux kw tp
    (p.stage2_2_input =
      match ob.internal with
      | none =>
        [{ tag := FeatTag.lstm1Out, width := p.on_lstm_1.output_width },
         { tag := FeatTag.extFeatures, width := ct.prod },
         { tag := FeatTag.actionReward, width := ac + 1 }]
      | some ish =>
        [{ tag := FeatTag.lstm1Out, width := p.on_lstm_1.output_width },
         { tag := FeatTag.extFeatures, width := ct.prod },
         { tag := FeatTag.actionReward, width := ac + 1 },
         { tag := FeatTag.internalFeatures, width := ish.prod }]) ∧
    (concatWidth p.stage2_2_input =
      match ob.internal with
      | none => p.on_lstm_1.output_width + ct.prod + (ac + 1)
      | some ish => p.on_lstm_1.output_width + ct.prod + (ac + 1) + ish.prod) := by
  cases hInt : ob.internal with
  | none =>
    refine ⟨?_, ?_⟩ <;>
      simp [StackedLstmPolicy.construct, conv_2d_network, lstm_network, concatWidth, hInt,
        Nat.add_assoc]
  | some ish =>
    refine ⟨?_, ?_⟩ <;>
      simp [StackedLstmPolicy.construct, conv_2d_network, lstm_network, concatWidth, hInt,
        Nat.add_assoc]

/-- C4: after construction the combined exposed recurrent state is the
ordered pair (layer-1 state, layer-2 state) (line 124) and the combined
flattened state-placeholder list is layer 1's flattened list followed by
layer 2's (line 125): its length is the sum of the two lists' lengths and
splitting it at the layer boundary recovers each layer's state structure. -/
theorem claim_C4_combined_state_concatenation (ob : ObSpace) (ct : List Nat)
    (ac rp : Nat) (layers : List Nat) (aux : Bool) (kw : KwDict)
    (tp : Option TrainPhasePl) :
    let p := StackedLstmPolicy.construct ob ct ac rp layers aux kw tp
    p.on_lstm_state_out_pair = (p.on_lstm_1, p.on_lstm_2) ∧
    p.on_lstm_state_pl_flatten =
      p.on_lstm_1.state_pl_flatten ++ p.on_lstm_2.state_pl_flatten ∧
    p.on_lstm_state_pl_flatten.length =
      p.on_lstm_1.state_pl_flatten.length + p.on_lstm_2.state_pl_flatten.length ∧
    p.on_lstm_state_pl_flatten.take p.on_lstm_1.state_pl_flatten.length =
      p.on_lstm_1.state_pl_flatten ∧
    p.on_lstm_state_pl_flatten.drop p.on_lstm_1.state_pl_flatten.length =
      p.on_lstm_2.state_pl_flatten := by
  refine ⟨rfl, rfl, ?_, ?_, ?_⟩ <;>
    simp [StackedLstmPolicy.construct, lstm_network]

/-- C5: for the construction with `ac_space = 4`, `lstm_layers = (8, 16)`,
`batch_size = 2`, `time_length = 3` (`n = 6`) and no `internal` modality,
whatever trailing feature shape the convolutional encoder produces, the
policy logits have shape `[6, 4]`, the value estimate has shape `[6]`,
recurrent layer 1 is built with 8 units (its state components sized for 8)
and recurrent layer 2 with 16 units (its state components sized for 16). -/
theorem claim_C5_concrete_scenario_shapes (ct : List Nat) :
    let p : StackedLstmPolicy :=
      StackedLstmPolicy.construct { external := [10, 10, 3], internal := none }
        ct 4 4 [8, 16] false (fun _ => none) none
    p.on_lstm_1.units = 8 ∧ p.on_lstm_2.units = 16 ∧
    p.evalShapes 6 2 =
      some { on_logits := [6, 4]
             on_vf := [6]
             lstm_1_state_sizes := [8, 8]
             lstm_2_state_sizes := [16, 16] } := by
  refine ⟨rfl, rfl, ?_⟩
  have h6 : 2 * (3 * ct.prod) = 6 * ct.prod := by ring
  simp [StackedLstmPolicy.evalShapes, StackedLstmPolicy.construct, conv_2d_network,
    internalReshape, lstm_network, dense_aac_network, maxSeqLen, tfReshape,
    Option.bind, h6]

/-- C6: with `aux_estimate = False` the auxiliary-callback registry stays
the empty dictionary of line 59, so looking up any auxiliary callback
fails; with `aux_estimate = True` it holds exactly the key of the one
enabled auxiliary task, `pixel_change` (lines 228-229). -/
theorem claim_C6_callback_registry (ob : ObSpace) (ct : List Nat) (ac rp : Nat)
    (layers : List Nat) (kw : KwDict) (tp : Option TrainPhasePl) :
    let pOff := StackedLstmPolicy.construct ob ct ac rp layers false kw tp
    let pOn := StackedLstmPolicy.construct ob ct ac rp layers true kw tp
    pOff.callback = [] ∧
    (∀ k, pOff.callback.lookup k = none) ∧
    pOn.callback = [(pixelChangeKey, AuxCallback.getPcTarget)] ∧
    pOn.callback.map Prod.fst = [pixelChangeKey] := by
  exact ⟨rfl, fun k => rfl, rfl, rfl⟩

/-- C7: the guard of the off-policy/auxiliary branch (line 128) is the
literal `False`, so for every construction none of the branch's outputs
(off-policy logits and value, pixel-change Q-features, reward-prediction
logits) exist after construction. -/
theorem claim_C7_off_policy_branch_never_built (ob : ObSpace) (ct : List Nat)
    (ac rp : Nat) (layers : List Nat) (aux : Bool) (kw : KwDict)
    (tp : Option TrainPhasePl) :
    offPolicyGuard = false ∧
    (StackedLstmPolicy.construct ob ct ac rp layers aux kw tp).off_branch = none :=
  ⟨rfl, rfl⟩

/-- C8: for every construction in which no training-phase flag has
otherwise been set (the attribute access of line 209 raises), the network
creates the boolean training-phase flag placeholder of lines 213-217 with
default value `false`. -/
theorem claim_C8_train_phase_defaults_false (ob : ObSpace) (ct : List Nat)
    (ac rp : Nat) (layers : List Nat) (aux : Bool) (kw : KwDict) :
    (StackedLstmPolicy.construct ob ct ac rp layers aux kw none).train_phase =
      { default_value := false } ∧
    (StackedLstmPolicy.construct ob ct ac rp layers aux kw none).train_phase.default_value
      = false :=
  ⟨rfl, rfl⟩

/-- C9: only the first and last entries of the `lstm_layers` tuple are
used: layer 1 is built with the single unit count `lstm_layers[0]`
(line 95) and layer 2 with `lstm_layers[-1]` (line 112); entries between
first and last are silently ignored, and any such tuple still yields
exactly the two recurrent layers. A single-entry tuple uses that entry for
both layers. -/
theorem claim_C9_first_and_last_layer_entries (ob : ObSpace) (ct : List Nat)
    (ac rp : Nat) (aux : Bool) (kw : KwDict) (tp : Option TrainPhasePl)
    (a b : Nat) (mid : List Nat) :
    let p := StackedLstmPolicy.construct ob ct ac rp (a :: (mid ++ [b])) aux kw tp
    let q := StackedLstmPolicy.construct ob ct ac rp [a] aux kw tp
    p.on_lstm_1.units = a ∧ p.on_lstm_2.units = b ∧
    p.recurrent_layers = [lstm_network lstm1Name a, lstm_network lstm2Name b] ∧
    p.recurrent_layers.length = 2 ∧
    q.on_lstm_1.units = a ∧ q.on_lstm_2.units = a := by
  have hLast : (a :: (mid ++ [b])).getLastD 0 = b := by
    rw [show a :: (mid ++ [b]) = (a :: mid) ++ [b] from rfl]
    exact List.getLastD_concat 0 b (a :: mid)
  refine ⟨rfl, hLast, ?_, rfl, rfl, rfl⟩
  show [lstm_network lstm1Name a, lstm_network lstm2Name ((a :: (mid ++ [b])).getLastD 0)] =
    [lstm_network lstm1Name a, lstm_network lstm2Name b]
  rw [hLast]

/-- C10: the six keyword arguments `conv_2d_filter_size`, `conv_2d_stride`,
`pc_estimator_stride`, `duell_pc_x_inner_shape`, `duell_pc_filter_size`
and `duell_pc_stride` are unconditionally overwritten by the hard-coded
1D-geometry constants of lines 42-51 before the keyword dictionary is
forwarded to the convolutional encoder (line 79), whatever the caller
supplied for them. -/
theorem claim_C10_kwargs_hard_overridden (ob : ObSpace) (ct : List Nat)
    (ac rp : Nat) (layers : List Nat) (aux : Bool) (kw : KwDict)
    (tp : Option TrainPhasePl) :
    let p := StackedLstmPolicy.construct ob ct ac rp layers aux kw tp
    p.fwd_kwargs (r"conv_2d_filter_size") = some [3, 1] ∧
    p.fwd_kwargs (r"conv_2d_stride") = some [2, 1] ∧
    p.fwd_kwargs (r"pc_estimator_stride") = some [2, 1] ∧
    p.fwd_kwargs (r"duell_pc_x_inner_shape") = some [6, 1, 32] ∧
    p.fwd_kwargs (r"duell_pc_filter_size") = some [4, 1] ∧
    p.fwd_kwargs (r"duell_pc_stride") = some [2, 1] :=
  ⟨rfl, rfl, rfl, rfl, rfl, rfl⟩
